import Mathlib

/-
  Shallow embedding of src/src/module.rs (a safety wrapper around an LLVM-like
  compiler backend).  The backend is opaque: it is modelled as a structure of
  response functions over an abstract state.  Every wrapper operation is a
  direct translation of the Rust function body; besides its result it returns
  the updated backend state and the trace of observable events it performed
  (backend calls, pointer dereferences, message disposals, printed text).
  Rust panics (CString conversion failure, assert) are modelled as Except
  errors; out-parameters written by the backend are modelled as returned
  values.
-/

namespace Inkwell

/-- Bytes of a Rust string (a str or C string payload) crossing the FFI
boundary. -/
abbrev RStr := List Nat

/-- A Rust panic (process abort).  cstringNul is the expect on CString::new
with message Conversion to CString failed unexpectedly; assertNonNull is the
assert in Module::new that the handle is not null. -/
inductive Panic
  | cstringNul
  | assertNonNull
  deriving DecidableEq

/-- CString::new succeeds exactly when the byte string holds no embedded NUL
byte; on an embedded NUL it fails (and the callers in module.rs panic via
expect). -/
def cstringNew (s : RStr) : Option RStr :=
  if s.contains 0 then none else some s

/-- The LLVMVerifierFailureAction enumeration of the backend. -/
inductive LLVMVerifierFailureAction
  | abortProcessAction
  | printMessageAction
  | returnStatusAction
  deriving DecidableEq

/-- The backend native linkage enumeration (llvm-sys LLVMLinkage), with its
seventeen variants; the match in Linkage::new is exhaustive over exactly
these. -/
inductive LLVMLinkage
  | LLVMExternalLinkage
  | LLVMAvailableExternallyLinkage
  | LLVMLinkOnceAnyLinkage
  | LLVMLinkOnceODRLinkage
  | LLVMLinkOnceODRAutoHideLinkage
  | LLVMWeakAnyLinkage
  | LLVMWeakODRLinkage
  | LLVMAppendingLinkage
  | LLVMInternalLinkage
  | LLVMPrivateLinkage
  | LLVMDLLImportLinkage
  | LLVMDLLExportLinkage
  | LLVMExternalWeakLinkage
  | LLVMGhostLinkage
  | LLVMCommonLinkage
  | LLVMLinkerPrivateLinkage
  | LLVMLinkerPrivateWeakLinkage
  deriving DecidableEq

/-- The wrapper Linkage enumeration of module.rs. -/
inductive Linkage
  | AppendingLinkage
  | AvailableExternallyLinkage
  | CommonLinkage
  | DLLExportLinkage
  | DLLImportLinkage
  | ExternalLinkage
  | ExternalWeakLinkage
  | GhostLinkage
  | InternalLinkage
  | LinkerPrivateLinkage
  | LinkerPrivateWeakLinkage
  | LinkOnceAnyLinkage
  | LinkOnceODRAutoHideLinkage
  | LinkOnceODRLinkage
  | PrivateLinkage
  | WeakAnyLinkage
  | WeakODRLinkage
  deriving DecidableEq

/-- Linkage::new: translation from the backend representation. -/
def Linkage.new (linkage : LLVMLinkage) : Linkage :=
  match linkage with
  | .LLVMAppendingLinkage => Linkage.AppendingLinkage
  | .LLVMAvailableExternallyLinkage => Linkage.AvailableExternallyLinkage
  | .LLVMCommonLinkage => Linkage.CommonLinkage
  | .LLVMDLLExportLinkage => Linkage.DLLExportLinkage
  | .LLVMDLLImportLinkage => Linkage.DLLImportLinkage
  | .LLVMExternalLinkage => Linkage.ExternalLinkage
  | .LLVMExternalWeakLinkage => Linkage.ExternalWeakLinkage
  | .LLVMGhostLinkage => Linkage.GhostLinkage
  | .LLVMInternalLinkage => Linkage.InternalLinkage
  | .LLVMLinkerPrivateLinkage => Linkage.LinkerPrivateLinkage
  | .LLVMLinkerPrivateWeakLinkage => Linkage.LinkerPrivateWeakLinkage
  | .LLVMLinkOnceAnyLinkage => Linkage.LinkOnceAnyLinkage
  | .LLVMLinkOnceODRAutoHideLinkage => Linkage.LinkOnceODRAutoHideLinkage
  | .LLVMLinkOnceODRLinkage => Linkage.LinkOnceODRLinkage
  | .LLVMPrivateLinkage => Linkage.PrivateLinkage
  | .LLVMWeakAnyLinkage => Linkage.WeakAnyLinkage
  | .LLVMWeakODRLinkage => Linkage.WeakODRLinkage

/-- Linkage::as_llvm_linkage: translation to the backend representation. -/
def Linkage.as_llvm_linkage (self : Linkage) : LLVMLinkage :=
  match self with
  | Linkage.AppendingLinkage => .LLVMAppendingLinkage
  | Linkage.AvailableExternallyLinkage => .LLVMAvailableExternallyLinkage
  | Linkage.CommonLinkage => .LLVMCommonLinkage
  | Linkage.DLLExportLinkage => .LLVMDLLExportLinkage
  | Linkage.DLLImportLinkage => .LLVMDLLImportLinkage
  | Linkage.ExternalLinkage => .LLVMExternalLinkage
  | Linkage.ExternalWeakLinkage => .LLVMExternalWeakLinkage
  | Linkage.GhostLinkage => .LLVMGhostLinkage
  | Linkage.InternalLinkage => .LLVMInternalLinkage
  | Linkage.LinkerPrivateLinkage => .LLVMLinkerPrivateLinkage
  | Linkage.LinkerPrivateWeakLinkage => .LLVMLinkerPrivateWeakLinkage
  | Linkage.LinkOnceAnyLinkage => .LLVMLinkOnceAnyLinkage
  | Linkage.LinkOnceODRAutoHideLinkage => .LLVMLinkOnceODRAutoHideLinkage
  | Linkage.LinkOnceODRLinkage => .LLVMLinkOnceODRLinkage
  | Linkage.PrivateLinkage => .LLVMPrivateLinkage
  | Linkage.WeakAnyLinkage => .LLVMWeakAnyLinkage
  | Linkage.WeakODRLinkage => .LLVMWeakODRLinkage

/-- Observable events of the wrapper: foreign calls into the backend plus the
memory dereferences (CStr::from_ptr), message disposals and printed output it
performs.  Handles and pointers are naturals, 0 being the null handle. -/
inductive Event
  | moduleCreateWithName (name : RStr)
  | cloneModule (m : Nat)
  | addFunction (m : Nat) (name : RStr) (fnType : Nat)
  | setLinkage (v : Nat) (l : LLVMLinkage)
  | getNamedFunction (m : Nat) (name : RStr)
  | getFirstFunction (m : Nat)
  | getLastFunction (m : Nat)
  | getTypeByName (m : Nat) (name : RStr)
  | setTarget (m : Nat) (triple : RStr)
  | getTarget (m : Nat)
  | getDataLayout (m : Nat)
  | addGlobal (m : Nat) (ty : Nat) (name : RStr)
  | addGlobalInAddressSpace (m : Nat) (ty : Nat) (name : RStr) (space : Nat)
  | setInitVal (v : Nat) (init : Nat)
  | writeBitcodeToFile (m : Nat) (path : RStr)
  | linkInMCJIT
  | linkInInterpreter
  | createExecutionEngineForModule (m : Nat)
  | verifyModule (m : Nat) (action : LLVMVerifierFailureAction) (outParam : Nat)
  | disposeMessage (p : Nat)
  | derefCStr (p : Nat)
  | printlnOut (s : RStr)
  deriving DecidableEq

/-- The opaque backend, as response functions over an abstract state.  Calls
that return a handle or pointer return a natural (0 = null); calls with out
parameters return the written values; msgAt reads the C string stored at a
pointer, ptrAt reads the pointer stored at a pointer-to-pointer location. -/
structure Backend (σ : Type) where
  moduleCreateWithName : RStr → σ → Nat × σ
  cloneModule : Nat → σ → Nat × σ
  addFunction : Nat → RStr → Nat → σ → Nat × σ
  setLinkage : Nat → LLVMLinkage → σ → σ
  getNamedFunction : Nat → RStr → σ → Nat
  getFirstFunction : Nat → σ → Nat
  getLastFunction : Nat → σ → Nat
  getTypeByName : Nat → RStr → σ → Nat
  setTarget : Nat → RStr → σ → σ
  getTarget : Nat → σ → Nat
  getDataLayout : Nat → σ → Nat
  addGlobal : Nat → Nat → RStr → σ → Nat × σ
  addGlobalInAddressSpace : Nat → Nat → RStr → Nat → σ → Nat × σ
  setInitVal : Nat → Nat → σ → σ
  writeBitcodeToFile : Nat → RStr → σ → Int × σ
  linkInMCJIT : σ → σ
  linkInInterpreter : σ → σ
  createExecutionEngineForModule : Nat → σ → (Int × Nat × Nat) × σ
  verifyModule : Nat → LLVMVerifierFailureAction → Nat → σ → Int × σ
  msgAt : Nat → σ → RStr
  ptrAt : Nat → σ → Nat

/-- The Module wrapper: owns one backend module handle. -/
structure Module where
  module : Nat
  deriving DecidableEq

/-- FunctionValue, modelled as an opaque handle wrapper: values.rs is not part
of this repository snapshot, and the claims treat it as opaque. -/
structure FunctionValue where
  value : Nat
  deriving DecidableEq

/-- FunctionValue::new, modelled as the plain wrapper constructor. -/
def FunctionValue.new (value : Nat) : FunctionValue :=
  { value := value }

/-- PointerValue, modelled as an opaque pointer-typed handle wrapper. -/
structure PointerValue where
  value : Nat
  deriving DecidableEq

/-- PointerValue::new, modelled as the plain wrapper constructor. -/
def PointerValue.new (value : Nat) : PointerValue :=
  { value := value }

/-- BasicTypeEnum, modelled as an opaque type-handle wrapper. -/
structure BasicTypeEnum where
  type_ : Nat
  deriving DecidableEq

/-- BasicTypeEnum::new, modelled as the plain wrapper constructor. -/
def BasicTypeEnum.new (type_ : Nat) : BasicTypeEnum :=
  { type_ := type_ }

/-- ExecutionEngine, modelled as an opaque wrapper holding the engine handle
and the jit flag (ExecutionEngine::new arguments). -/
structure ExecutionEngine where
  engine : Nat
  jit : Bool
  deriving DecidableEq

/-- ExecutionEngine::new, modelled as the plain wrapper constructor. -/
def ExecutionEngine.new (engine : Nat) (jit : Bool) : ExecutionEngine :=
  { engine := engine, jit := jit }

/-- A borrowed CStr view as produced by CStr::from_ptr: it simply carries the
pointer it was built from, with no null check. -/
structure CStrView where
  ptr : Nat
  deriving DecidableEq

/-- Module::new: wraps a handle; the assert demands the handle be non-null,
a violation aborts. -/
def Module.new (module : Nat) : Except Panic Module :=
  if module == 0 then Except.error Panic.assertNonNull
  else Except.ok { module := module }

/-- Module::create: CString conversion of the name (panic on embedded NUL),
one LLVMModuleCreateWithName call, then Module::new on the returned handle. -/
def Module.create {σ : Type} (B : Backend σ) (name : RStr) (s : σ) :
    Except Panic Module × σ × List Event :=
  match cstringNew name with
  | none => (Except.error Panic.cstringNul, s, [])
  | some c_string =>
    let r := B.moduleCreateWithName c_string s
    (Module.new r.1, r.2, [Event.moduleCreateWithName c_string])

/-- Clone for Module: one LLVMCloneModule call, then Module::new on the
returned handle. -/
def Module.clone {σ : Type} (B : Backend σ) (self : Module) (s : σ) :
    Except Panic Module × σ × List Event :=
  let r := B.cloneModule self.module s
  (Module.new r.1, r.2, [Event.cloneModule self.module])

/-- Module::add_function: CString conversion of the name, one LLVMAddFunction
call, then — only when a linkage was provided — one LLVMSetLinkage call on the
value returned by LLVMAddFunction. -/
def Module.add_function {σ : Type} (B : Backend σ) (self : Module) (name : RStr)
    (return_type : Nat) (linkage : Option Linkage) (s : σ) :
    Except Panic FunctionValue × σ × List Event :=
  match cstringNew name with
  | none => (Except.error Panic.cstringNul, s, [])
  | some c_string =>
    let r := B.addFunction self.module c_string return_type s
    let value := r.1
    match linkage with
    | some l =>
      let s2 := B.setLinkage value l.as_llvm_linkage r.2
      (Except.ok (FunctionValue.new value), s2,
        [Event.addFunction self.module c_string return_type,
         Event.setLinkage value l.as_llvm_linkage])
    | none =>
      (Except.ok (FunctionValue.new value), r.2,
        [Event.addFunction self.module c_string return_type])

/-- Module::get_first_function: one LLVMGetFirstFunction call; a null result
handle becomes None. -/
def Module.get_first_function {σ : Type} (B : Backend σ) (self : Module) (s : σ) :
    Option FunctionValue × List Event :=
  let function := B.getFirstFunction self.module s
  if function == 0 then (none, [Event.getFirstFunction self.module])
  else (some (FunctionValue.new function), [Event.getFirstFunction self.module])

/-- Module::get_last_function: one LLVMGetLastFunction call; a null result
handle becomes None. -/
def Module.get_last_function {σ : Type} (B : Backend σ) (self : Module) (s : σ) :
    Option FunctionValue × List Event :=
  let function := B.getLastFunction self.module s
  if function == 0 then (none, [Event.getLastFunction self.module])
  else (some (FunctionValue.new function), [Event.getLastFunction self.module])

/-- Module::get_function: CString conversion of the name, one
LLVMGetNamedFunction call; a null result handle becomes None. -/
def Module.get_function {σ : Type} (B : Backend σ) (self : Module) (name : RStr)
    (s : σ) : Except Panic (Option FunctionValue) × List Event :=
  match cstringNew name with
  | none => (Except.error Panic.cstringNul, [])
  | some c_string =>
    let value := B.getNamedFunction self.module c_string s
    if value == 0 then
      (Except.ok none, [Event.getNamedFunction self.module c_string])
    else
      (Except.ok (some (FunctionValue.new value)),
        [Event.getNamedFunction self.module c_string])

/-- Module::get_type: CString conversion of the name, one LLVMGetTypeByName
call; a null result handle becomes None. -/
def Module.get_type {σ : Type} (B : Backend σ) (self : Module) (name : RStr)
    (s : σ) : Except Panic (Option BasicTypeEnum) × List Event :=
  match cstringNew name with
  | none => (Except.error Panic.cstringNul, [])
  | some c_string =>
    let type_ := B.getTypeByName self.module c_string s
    if type_ == 0 then
      (Except.ok none, [Event.getTypeByName self.module c_string])
    else
      (Except.ok (some (BasicTypeEnum.new type_)),
        [Event.getTypeByName self.module c_string])

/-- Module::set_target: CString conversion of the triple, one LLVMSetTarget
call. -/
def Module.set_target {σ : Type} (B : Backend σ) (self : Module)
    (target_triple : RStr) (s : σ) : Except Panic Unit × σ × List Event :=
  match cstringNew target_triple with
  | none => (Except.error Panic.cstringNul, s, [])
  | some c_string =>
    (Except.ok (), B.setTarget self.module c_string s,
      [Event.setTarget self.module c_string])

/-- Module::get_target: CStr::from_ptr applied directly to the pointer
returned by LLVMGetTarget — no null check, the pointer is dereferenced
unconditionally. -/
def Module.get_target {σ : Type} (B : Backend σ) (self : Module) (s : σ) :
    CStrView × List Event :=
  let p := B.getTarget self.module s
  ({ ptr := p }, [Event.getTarget self.module, Event.derefCStr p])

/-- Module::get_data_layout: CStr::from_ptr applied directly to the pointer
returned by LLVMGetDataLayout — no null check, the pointer is dereferenced
unconditionally. -/
def Module.get_data_layout {σ : Type} (B : Backend σ) (self : Module) (s : σ) :
    CStrView × List Event :=
  let p := B.getDataLayout self.module s
  ({ ptr := p }, [Event.getDataLayout self.module, Event.derefCStr p])

/-- Module::add_global: CString conversion of the name, then
LLVMAddGlobalInAddressSpace when an address space is given and LLVMAddGlobal
otherwise, then — only when an initial value is given — one LLVMSetInitializer
call on the returned handle; the result is always a PointerValue over that
handle. -/
def Module.add_global {σ : Type} (B : Backend σ) (self : Module) (type_ : Nat)
    (initial_value : Option Nat) (address_space : Option Nat) (name : RStr)
    (s : σ) : Except Panic PointerValue × σ × List Event :=
  match cstringNew name with
  | none => (Except.error Panic.cstringNul, s, [])
  | some c_string =>
    let alloc :=
      match address_space with
      | some space =>
        (B.addGlobalInAddressSpace self.module type_ c_string space s,
          Event.addGlobalInAddressSpace self.module type_ c_string space)
      | none =>
        (B.addGlobal self.module type_ c_string s,
          Event.addGlobal self.module type_ c_string)
    let value := alloc.1.1
    match initial_value with
    | some init_val =>
      (Except.ok (PointerValue.new value), B.setInitVal value init_val alloc.1.2,
        [alloc.2, Event.setInitVal value init_val])
    | none =>
      (Except.ok (PointerValue.new value), alloc.1.2, [alloc.2])

/-- Module::write_bitcode_to_path: the path is modelled as already being a
valid str (the to_str step of the source is the identity on it); CString
conversion panics on an embedded NUL; one LLVMWriteBitcodeToFile call, success
is a zero return code. -/
def Module.write_bitcode_to_path {σ : Type} (B : Backend σ) (self : Module)
    (path : RStr) (s : σ) : Except Panic Bool × σ × List Event :=
  match cstringNew path with
  | none => (Except.error Panic.cstringNul, s, [])
  | some c_string =>
    let r := B.writeBitcodeToFile self.module c_string s
    (Except.ok (r.1 == 0), r.2, [Event.writeBitcodeToFile self.module c_string])

/-- Module::create_execution_engine: LLVMLinkInMCJIT only when jit_mode, then
LLVMLinkInInterpreter always, then LLVMCreateExecutionEngineForModule.  The
out parameters (engine handle, error message pointer) are modelled as returned
values.  On code 1 the message is copied from the error pointer and the
pointer is disposed once; the copy is the Err value.  Otherwise Ok wraps the
engine. -/
def Module.create_execution_engine {σ : Type} (B : Backend σ) (self : Module)
    (jit_mode : Bool) (s : σ) : Except RStr ExecutionEngine × σ × List Event :=
  let s1 := if jit_mode then B.linkInMCJIT s else s
  let tr1 : List Event := if jit_mode then [Event.linkInMCJIT] else []
  let s2 := B.linkInInterpreter s1
  let r := B.createExecutionEngineForModule self.module s2
  let code := r.1.1
  let execution_engine := r.1.2.1
  let err_str := r.1.2.2
  let s3 := r.2
  if code == 1 then
    let rust_str := B.msgAt err_str s3
    (Except.error rust_str, s3,
      tr1 ++ [Event.linkInInterpreter,
              Event.createExecutionEngineForModule self.module,
              Event.derefCStr err_str, Event.disposeMessage err_str])
  else
    (Except.ok (ExecutionEngine.new execution_engine jit_mode), s3,
      tr1 ++ [Event.linkInInterpreter,
              Event.createExecutionEngineForModule self.module])

/-- Module::verify: the local err_str is a zeroed (null) pointer-to-pointer
and its value is what the backend call receives; the local itself is never
reassigned.  The action is chosen by the print flag.  The diagnostic branch
demands code 1 and err_str non-null; its body (modelled faithfully) would
read the pointer stored at err_str, print the string there when print is
set, and dispose it.  The result is whether the return code is zero. -/
def Module.verify {σ : Type} (B : Backend σ) (self : Module) (print : Bool)
    (s : σ) : Bool × σ × List Event :=
  let err_str : Nat := 0
  let action := if print then LLVMVerifierFailureAction.printMessageAction
                else LLVMVerifierFailureAction.returnStatusAction
  let r := B.verifyModule self.module action err_str s
  let code := r.1
  let s1 := r.2
  if code == 1 && !(err_str == 0) then
    let p := B.ptrAt err_str s1
    let tr :=
      if print then [Event.derefCStr p, Event.printlnOut (B.msgAt p s1)]
      else []
    (code == 0, s1,
      [Event.verifyModule self.module action err_str] ++ tr ++
        [Event.disposeMessage p])
  else
    (code == 0, s1, [Event.verifyModule self.module action err_str])

/-- A trivial backend over the unit state with all-null responses, used as a
base for concrete instantiations. -/
def zeroBackend : Backend Unit where
  moduleCreateWithName := fun _ s => (0, s)
  cloneModule := fun _ s => (0, s)
  addFunction := fun _ _ _ s => (0, s)
  setLinkage := fun _ _ s => s
  getNamedFunction := fun _ _ _ => 0
  getFirstFunction := fun _ _ => 0
  getLastFunction := fun _ _ => 0
  getTypeByName := fun _ _ _ => 0
  setTarget := fun _ _ s => s
  getTarget := fun _ _ => 0
  getDataLayout := fun _ _ => 0
  addGlobal := fun _ _ _ s => (0, s)
  addGlobalInAddressSpace := fun _ _ _ _ s => (0, s)
  setInitVal := fun _ _ s => s
  writeBitcodeToFile := fun _ _ s => (0, s)
  linkInMCJIT := fun s => s
  linkInInterpreter := fun s => s
  createExecutionEngineForModule := fun _ s => ((0, 0, 0), s)
  verifyModule := fun _ _ _ s => (0, s)
  msgAt := fun _ _ => []
  ptrAt := fun _ _ => 0

/-- A backend whose verifier rejects every module (return code 1), for
exercising the failure path of Module::verify. -/
def failVerifyBackend : Backend Unit :=
  { zeroBackend with verifyModule := fun _ _ _ s => (1, s) }

/-- A backend returning non-null handles from the allocation calls, with
execution-engine creation failing with diagnostic pointer 7 holding the
bytes of the word boom. -/
def liveBackend : Backend Unit :=
  { zeroBackend with
      moduleCreateWithName := fun _ s => (1, s)
      cloneModule := fun _ s => (2, s)
      addFunction := fun _ _ _ s => (3, s)
      addGlobal := fun _ _ _ s => (4, s)
      addGlobalInAddressSpace := fun _ _ _ _ s => (5, s)
      getNamedFunction := fun _ _ _ => 6
      getTypeByName := fun _ _ _ => 6
      createExecutionEngineForModule := fun _ s => ((1, 0, 7), s)
      msgAt := fun p _ => if p == 7 then [98, 111, 111, 109] else [] }

/-- Modelled from the spec: the backend tracking of module function lists is
external library behaviour (not part of this repository), described in the
spec as declaration order (insertion order as tracked by the backend).  The
state keeps, per module handle, the list of its function handles in insertion
order, plus a fresh-handle counter starting at 1 so handles are non-null. -/
structure SpecState where
  modules : List (Nat × List Nat)
  next : Nat
  deriving DecidableEq

/-- Modelled from the spec: a backend over SpecState in which module creation
allocates a fresh empty module, addFunction appends a fresh function handle to
the module in insertion order, and getFirstFunction and getLastFunction
return the first and last handle of that list, or null when the module has
none.  The remaining operations are irrelevant to the claims settled against
this backend and respond with null. -/
def specBackend : Backend SpecState where
  moduleCreateWithName := fun _ s =>
    (s.next, { modules := s.modules ++ [(s.next, [])], next := s.next + 1 })
  cloneModule := fun _ s => (0, s)
  addFunction := fun m _ _ s =>
    (s.next,
      { modules := s.modules.map
          (fun e => if e.1 == m then (e.1, e.2 ++ [s.next]) else e),
        next := s.next + 1 })
  setLinkage := fun _ _ s => s
  getNamedFunction := fun _ _ _ => 0
  getFirstFunction := fun m s => (((s.modules.lookup m).getD []).headD 0)
  getLastFunction := fun m s => (((s.modules.lookup m).getD []).getLastD 0)
  getTypeByName := fun _ _ _ => 0
  setTarget := fun _ _ s => s
  getTarget := fun _ _ => 0
  getDataLayout := fun _ _ => 0
  addGlobal := fun _ _ _ s => (0, s)
  addGlobalInAddressSpace := fun _ _ _ _ s => (0, s)
  setInitVal := fun _ _ s => s
  writeBitcodeToFile := fun _ _ s => (0, s)
  linkInMCJIT := fun s => s
  linkInInterpreter := fun s => s
  createExecutionEngineForModule := fun _ s => ((0, 0, 0), s)
  verifyModule := fun _ _ _ s => (0, s)
  msgAt := fun _ _ => []
  ptrAt := fun _ _ => 0

/-- cstringNew fails exactly on an embedded NUL. -/
theorem cstringNew_eq_none_iff (s : RStr) :
    cstringNew s = none ↔ s.contains 0 = true := by
  unfold cstringNew
  split <;> simp_all

/-- cstringNew is the identity on NUL-free byte strings. -/
theorem cstringNew_eq_some (s : RStr) (h : s.contains 0 = false) :
    cstringNew s = some s := by
  unfold cstringNew
  rw [h]
  simp

/-- C9: the Linkage enumeration converts bidirectionally with the backend
native linkage representation: new inverts as_llvm_linkage and
as_llvm_linkage inverts new, on every value of either enumeration. -/
theorem c9_linkage_roundtrip :
    (∀ l : Linkage, Linkage.new l.as_llvm_linkage = l) ∧
    (∀ k : LLVMLinkage, (Linkage.new k).as_llvm_linkage = k) := by
  constructor
  · intro l
    cases l <;> rfl
  · intro k
    cases k <;> rfl

/-- C10: in Module::verify the err_str local is the null pointer and is never
reassigned, so for every backend, module state and print flag the diagnostic
branch is unreachable: the trace is exactly the one verifier call — no
diagnostic is printed and the message-release call never happens — and the
result is whether the verifier returned zero. -/
theorem c10_verify_diagnostic_branch_unreachable {σ : Type} (B : Backend σ)
    (self : Module) (print : Bool) (s : σ) :
    (Module.verify B self print s).2.2 =
      [Event.verifyModule self.module
        (if print then LLVMVerifierFailureAction.printMessageAction
         else LLVMVerifierFailureAction.returnStatusAction) 0] ∧
    (Module.verify B self print s).1 =
      ((B.verifyModule self.module
        (if print then LLVMVerifierFailureAction.printMessageAction
         else LLVMVerifierFailureAction.returnStatusAction) 0 s).1 == 0) := by
  unfold Module.verify
  simp

/-- C1: on a backend whose verifier rejects the module (return code 1) with
the print flag set, verify returns false but its trace holds no printlnOut
and no disposeMessage event: the diagnostic is neither emitted nor released,
against the claim. -/
theorem c1_verify_never_reports_diagnostic :
    Module.verify failVerifyBackend { module := 1 } true () =
      (false, (),
        [Event.verifyModule 1 LLVMVerifierFailureAction.printMessageAction 0]) := by
  rfl

/-- C2 counterexample: with a backend answering the target and data-layout
queries with the null pointer, get_target and get_data_layout do not translate
the null result to an empty/optional result: each dereferences the null
pointer (derefCStr 0 in the trace) and returns a raw view over it. -/
theorem c2_counterexample_get_target_null :
    Module.get_target zeroBackend { module := 1 } () =
      ({ ptr := 0 }, [Event.getTarget 1, Event.derefCStr 0]) ∧
    Module.get_data_layout zeroBackend { module := 1 } () =
      ({ ptr := 0 }, [Event.getDataLayout 1, Event.derefCStr 0]) := by
  exact ⟨rfl, rfl⟩

/-- C2 amended: get_function, get_type, get_first_function and
get_last_function return None exactly when the backend returns the null
handle (never an error); get_target and get_data_layout perform no null
check and return a view over whatever pointer the backend gives back. -/
theorem c2_null_result_handling {σ : Type} (B : Backend σ) (self : Module)
    (name : RStr) (s : σ) (hname : name.contains 0 = false) :
    ((Module.get_function B self name s).1 = Except.ok none ↔
      B.getNamedFunction self.module name s = 0) ∧
    ((Module.get_type B self name s).1 = Except.ok none ↔
      B.getTypeByName self.module name s = 0) ∧
    ((Module.get_first_function B self s).1 = none ↔
      B.getFirstFunction self.module s = 0) ∧
    ((Module.get_last_function B self s).1 = none ↔
      B.getLastFunction self.module s = 0) ∧
    (Module.get_target B self s).1 = { ptr := B.getTarget self.module s } ∧
    (Module.get_data_layout B self s).1 =
      { ptr := B.getDataLayout self.module s } := by
  refine ⟨?_, ?_, ?_, ?_, rfl, rfl⟩ <;>
    simp only [Module.get_function, Module.get_type, Module.get_first_function,
      Module.get_last_function, cstringNew_eq_some name hname] <;>
    split <;> simp_all

/-- C2 witness: concrete instantiation of the amended theorem on the all-null
backend with the one-byte name f. -/
theorem c2_null_result_handling_witness :
    ([102] : RStr).contains 0 = false ∧
    ((Module.get_function zeroBackend { module := 1 } [102] ()).1 =
        Except.ok none ↔
      zeroBackend.getNamedFunction 1 [102] () = 0) :=
  ⟨by decide,
    (c2_null_result_handling zeroBackend { module := 1 } [102] ()
      (by decide)).1⟩

/-- C3: for every string argument crossing into the backend — module name in
create, function name in add_function and get_function, type name in
get_type, target triple in set_target, global name in add_global, path in
write_bitcode_to_path — the operation aborts with the CString conversion
panic exactly when the string holds an embedded NUL byte. -/
theorem c3_embedded_nul_aborts {σ : Type} (B : Backend σ) (self : Module)
    (str : RStr) (return_type type_ : Nat) (linkage : Option Linkage)
    (initial_value address_space : Option Nat) (s : σ) :
    ((Module.create B str s).1 = Except.error Panic.cstringNul ↔
      str.contains 0 = true) ∧
    ((Module.add_function B self str return_type linkage s).1 =
        Except.error Panic.cstringNul ↔ str.contains 0 = true) ∧
    ((Module.get_function B self str s).1 = Except.error Panic.cstringNul ↔
      str.contains 0 = true) ∧
    ((Module.get_type B self str s).1 = Except.error Panic.cstringNul ↔
      str.contains 0 = true) ∧
    ((Module.set_target B self str s).1 = Except.error Panic.cstringNul ↔
      str.contains 0 = true) ∧
    ((Module.add_global B self type_ initial_value address_space str s).1 =
        Except.error Panic.cstringNul ↔ str.contains 0 = true) ∧
    ((Module.write_bitcode_to_path B self str s).1 =
        Except.error Panic.cstringNul ↔ str.contains 0 = true) := by
  by_cases hb : str.contains 0 = true
  · have h0 : cstringNew str = none := by
      unfold cstringNew
      rw [hb]
      simp
    have hmem : (0 : Nat) ∈ str := by simpa using hb
    simp [Module.create, Module.add_function, Module.get_function,
      Module.get_type, Module.set_target, Module.add_global,
      Module.write_bitcode_to_path, h0, hb, hmem]
  · have hf : str.contains 0 = false := by
      revert hb
      cases str.contains 0 <;> simp
    have h0 : cstringNew str = some str := cstringNew_eq_some str hf
    simp only [Module.create, Module.add_function, Module.get_function,
      Module.get_type, Module.set_target, Module.add_global,
      Module.write_bitcode_to_path, h0, hf]
    refine ⟨?_, ?_, ?_, ?_, ?_, ?_, ?_⟩
    · unfold Module.new
      split <;> simp
    · cases linkage <;> simp
    · split <;> simp
    · split <;> simp
    · simp
    · cases initial_value <;> cases address_space <;> simp
    · simp

/-- C4: Module::new rejects the null handle with the assert panic; clone and
create both construct their result through Module::new on the handle the
backend returned; hence any module a successful create or clone yields
carries a non-null handle. -/
theorem c4_nonnull_handle_invariant {σ : Type} (B : Backend σ) (s : σ)
    (name : RStr) (self m1 m2 : Module)
    (hc : (Module.create B name s).1 = Except.ok m1)
    (hk : (Module.clone B self s).1 = Except.ok m2) :
    Module.new 0 = Except.error Panic.assertNonNull ∧
    (Module.clone B self s).1 = Module.new (B.cloneModule self.module s).1 ∧
    (Module.create B name s).1 =
      Module.new (B.moduleCreateWithName name s).1 ∧
    m1.module ≠ 0 ∧ m2.module ≠ 0 := by
  have hsome : cstringNew name = some name := by
    rcases h : cstringNew name with _ | c
    · simp [Module.create, h] at hc
    · have hcn : c = name := by
        unfold cstringNew at h
        split at h <;> simp_all
      rw [hcn]
  have hcr : (Module.create B name s).1 =
      Module.new (B.moduleCreateWithName name s).1 := by
    simp only [Module.create, hsome]
  refine ⟨rfl, rfl, hcr, ?_, ?_⟩
  · rw [hcr] at hc
    simp only [Module.new] at hc
    split at hc
    · exact absurd hc (by simp)
    · rename_i hzero
      obtain rfl : m1 = { module := (B.moduleCreateWithName name s).1 } := by
        simpa using hc.symm
      simpa using hzero
  · simp only [Module.clone, Module.new] at hk
    split at hk
    · exact absurd hk (by simp)
    · rename_i hzero
      obtain rfl : m2 = { module := (B.cloneModule self.module s).1 } := by
        simpa using hk.symm
      simpa using hzero

/-- C4 witness: on the liveBackend, create yields the module with handle 1
and clone yields handle 2, both non-null. -/
theorem c4_nonnull_handle_invariant_witness :
    (Module.create liveBackend [97] ()).1 = Except.ok { module := 1 } ∧
    (Module.clone liveBackend { module := 1 } ()).1 =
      Except.ok { module := 2 } ∧
    (Module.mk 1).module ≠ 0 ∧ (Module.mk 2).module ≠ 0 :=
  ⟨rfl, rfl,
    (c4_nonnull_handle_invariant liveBackend () [97] { module := 1 }
      { module := 1 } { module := 2 } rfl rfl).2.2.2⟩

/-- C5: create_execution_engine links in the interpreter always and the JIT
exactly when jit_mode holds, then attempts engine construction; when the
backend answers with code 1 the Err value is the copy of the diagnostic text
at the returned error pointer and that pointer is disposed exactly once;
otherwise the result is Ok with the constructed engine and nothing is
disposed. -/
theorem c5_create_execution_engine_contract {σ : Type} (B : Backend σ)
    (self : Module) (jit_mode : Bool) (s s2 s3 : σ) (code : Int) (ee err : Nat)
    (hs2 : s2 = B.linkInInterpreter (if jit_mode then B.linkInMCJIT s else s))
    (hr : B.createExecutionEngineForModule self.module s2 = ((code, ee, err), s3)) :
    (Module.create_execution_engine B self jit_mode s).2.2 =
      (if jit_mode then [Event.linkInMCJIT] else []) ++
        [Event.linkInInterpreter,
         Event.createExecutionEngineForModule self.module] ++
        (if code == 1 then [Event.derefCStr err, Event.disposeMessage err]
         else []) ∧
    (Module.create_execution_engine B self jit_mode s).1 =
      (if code == 1 then Except.error (B.msgAt err s3)
       else Except.ok (ExecutionEngine.new ee jit_mode)) ∧
    (Module.create_execution_engine B self jit_mode s).2.2.count
        (Event.disposeMessage err) = (if code == 1 then 1 else 0) := by
  subst hs2
  simp only [Module.create_execution_engine, hr]
  by_cases h1 : code == 1
  · simp [h1]
    cases jit_mode <;> simp [List.count_cons]
  · simp [h1]
    cases jit_mode <;> simp [List.count_cons]

/-- C5 witness: on the liveBackend with jit_mode set, the engine creation
fails with code 1 and error pointer 7, and the Err value is the diagnostic
text stored there. -/
theorem c5_create_execution_engine_contract_witness :
    liveBackend.createExecutionEngineForModule 1 () = ((1, 0, 7), ()) ∧
    (Module.create_execution_engine liveBackend { module := 1 } true ()).1 =
      (if (1 : Int) == 1 then Except.error (liveBackend.msgAt 7 ())
       else Except.ok (ExecutionEngine.new 0 true)) :=
  ⟨rfl,
    (c5_create_execution_engine_contract liveBackend { module := 1 } true
      () () () 1 0 7 rfl rfl).2.1⟩

/-- C6: add_function with no linkage performs exactly the one function
creation call (no linkage-setting call); with a linkage it performs the
creation call followed immediately by the linkage-setting call on the handle
the creation call returned. -/
theorem c6_add_function_linkage_calls {σ : Type} (B : Backend σ)
    (self : Module) (name : RStr) (return_type : Nat) (s : σ) (l : Linkage)
    (hname : name.contains 0 = false) :
    (Module.add_function B self name return_type none s).2.2 =
      [Event.addFunction self.module name return_type] ∧
    (Module.add_function B self name return_type (some l) s).2.2 =
      [Event.addFunction self.module name return_type,
       Event.setLinkage (B.addFunction self.module name return_type s).1
         l.as_llvm_linkage] := by
  constructor <;>
    simp [Module.add_function, cstringNew_eq_some name hname]

/-- C6 witness: concrete instantiation on the liveBackend with the one-byte
name f and external linkage. -/
theorem c6_add_function_linkage_calls_witness :
    ([102] : RStr).contains 0 = false ∧
    (Module.add_function liveBackend { module := 1 } [102] 0
        (some Linkage.ExternalLinkage) ()).2.2 =
      [Event.addFunction 1 [102] 0,
       Event.setLinkage (liveBackend.addFunction 1 [102] 0 ()).1
         Linkage.ExternalLinkage.as_llvm_linkage] :=
  ⟨by decide,
    (c6_add_function_linkage_calls liveBackend { module := 1 } [102] 0 ()
      Linkage.ExternalLinkage (by decide)).2⟩

/-- The handle the global allocation step of add_global produces: from the
address-space specific call when an address space is given, from the plain
call otherwise. -/
def allocGlobalHandle {σ : Type} (B : Backend σ) (self : Module) (type_ : Nat)
    (address_space : Option Nat) (name : RStr) (s : σ) : Nat :=
  match address_space with
  | some space => (B.addGlobalInAddressSpace self.module type_ name space s).1
  | none => (B.addGlobal self.module type_ name s).1

/-- C7: add_global allocates with the address-space specific call exactly
when an address space is given and with the plain call otherwise; an
initializer, when given, is set by a separate call after the allocation, on
the allocated handle; in every case the result is the pointer-typed wrapper
over the allocated handle. -/
theorem c7_add_global_contract {σ : Type} (B : Backend σ) (self : Module)
    (type_ : Nat) (initial_value address_space : Option Nat) (name : RStr)
    (s : σ) (hname : name.contains 0 = false) :
    (Module.add_global B self type_ initial_value address_space name s).2.2 =
      ((match address_space with
        | some space =>
          [Event.addGlobalInAddressSpace self.module type_ name space]
        | none => [Event.addGlobal self.module type_ name]) ++
       (match initial_value with
        | some init_val =>
          [Event.setInitVal
            (allocGlobalHandle B self type_ address_space name s) init_val]
        | none => [])) ∧
    (Module.add_global B self type_ initial_value address_space name s).1 =
      Except.ok (PointerValue.new
        (allocGlobalHandle B self type_ address_space name s)) := by
  cases initial_value <;> cases address_space <;>
    simp [Module.add_global, allocGlobalHandle,
      cstringNew_eq_some name hname]

/-- C7 witness: concrete instantiation on the liveBackend with name g,
an initializer and an address space. -/
theorem c7_add_global_contract_witness :
    ([103] : RStr).contains 0 = false ∧
    (Module.add_global liveBackend { module := 1 } 9 (some 4) (some 2)
        [103] ()).2.2 =
      ([Event.addGlobalInAddressSpace 1 9 [103] 2] ++
       [Event.setInitVal
          (allocGlobalHandle liveBackend { module := 1 } 9 (some 2) [103] ())
          4]) :=
  ⟨by decide,
    (c7_add_global_contract liveBackend { module := 1 } 9 (some 4) (some 2)
      [103] () (by decide)).1⟩

/-- The initial spec-modelled backend state: no modules, fresh handles start
at 1. -/
def c8s0 : SpecState := { modules := [], next := 1 }

/-- The module created by the C8 scenario; the first fresh handle is 1. -/
def c8mod : Module := { module := 1 }

/-- Backend state after creating the module of the C8 scenario. -/
def c8s1 : SpecState := (Module.create specBackend [109] c8s0).2.1

/-- The first add_function call of the C8 scenario. -/
def c8add1 := Module.add_function specBackend c8mod [102] 0 none c8s1

/-- Backend state after the first add_function call of the C8 scenario. -/
def c8s2 : SpecState := c8add1.2.1

/-- The second add_function call of the C8 scenario, with a distinct name. -/
def c8add2 := Module.add_function specBackend c8mod [103] 0 none c8s2

/-- Backend state after the second add_function call of the C8 scenario. -/
def c8s3 : SpecState := c8add2.2.1

/-- C8: against the spec-modelled backend, a fresh module has no first
function; after one add_function call get_first_function returns that
function; after a second add_function call with a distinct name
get_first_function still returns the first-added function and
get_last_function returns the second-added one. -/
theorem c8_function_order :
    (Module.create specBackend [109] c8s0).1 = Except.ok c8mod ∧
    (Module.get_first_function specBackend c8mod c8s1).1 = none ∧
    c8add1.1 = Except.ok (FunctionValue.new 2) ∧
    (Module.get_first_function specBackend c8mod c8s2).1 =
      some (FunctionValue.new 2) ∧
    c8add2.1 = Except.ok (FunctionValue.new 3) ∧
    (Module.get_first_function specBackend c8mod c8s3).1 =
      some (FunctionValue.new 2) ∧
    (Module.get_last_function specBackend c8mod c8s3).1 =
      some (FunctionValue.new 3) :=
  ⟨rfl, rfl, rfl, rfl, rfl, rfl, rfl⟩

end Inkwell
